import Mathlib

/-!
Shallow embedding of `src/nekoton-jni/src/lib.rs` (the `nekoton-kotlin`
native binding layer).  Every exported entry point in that file is a stub
with a fixed result: constant handles (`1`–`6`), zeroed byte buffers,
hard-coded strings.  The Rust source declares no `static` items, so the
library holds no global mutable state; we nevertheless thread an explicit
`NativeState` through every operation so that state-dependence (and its
absence) is provable rather than assumed.  Each Lean definition embeds the
Rust function `Java_com_mazekine_nekoton_Native_<name>`, keeping `<name>`.

Byte arrays (`jbyteArray`) are modelled as `List Nat`, `jlong` as `Int`,
`jboolean` as `Bool`, `jstring` as `String`.  The `Err(_) => null_mut()`
branches in the Rust cover only JNI allocation failure of the host
environment and are outside the embedded logical semantics, which is the
`Ok` path.
-/

namespace Nekoton

/-- Global mutable state of the native library.  The Rust source declares
no `static` items, so the state has no fields: all operations are pure
functions of their arguments. -/
structure NativeState

/-- The state in which a run of the library starts. -/
def initState : NativeState := ⟨⟩

/-- Embeds `Java_com_mazekine_nekoton_Native_createGqlTransport`
(lib.rs:45-51): ignores the endpoint and returns the constant handle 1. -/
def createGqlTransport (_endpoint : String) (s : NativeState) :
    NativeState × Int :=
  (s, 1)

/-- Embeds `Java_com_mazekine_nekoton_Native_createJrpcTransport`
(lib.rs:53-60): ignores the endpoint and returns the constant handle 2. -/
def createJrpcTransport (_endpoint : String) (s : NativeState) :
    NativeState × Int :=
  (s, 2)

/-- Embeds `Java_com_mazekine_nekoton_Native_sendExternalMessage`
(lib.rs:62-74): ignores the transport handle and message and returns a
fixed success string. -/
def sendExternalMessage (_transportHandle : Int) (_messageBoc : List Nat)
    (s : NativeState) : NativeState × String :=
  (s, "Message sent successfully (placeholder)")

/-- Embeds `Java_com_mazekine_nekoton_Native_getContractState`
(lib.rs:76-90): ignores the transport handle and address and returns the
UTF-8 bytes of a fixed JSON string. -/
def getContractState (_transportHandle : Int) (_address : String)
    (s : NativeState) : NativeState × String :=
  (s, "\x7b\"balance\":\"0\",\"isDeployed\":false\x7d")

/-- Embeds `Java_com_mazekine_nekoton_Native_getTransactions`
(lib.rs:92-108): ignores every argument and returns the bytes of "[]". -/
def getTransactions (_transportHandle : Int) (_address : String)
    (_fromLt : Int) (_count : Int) (s : NativeState) :
    NativeState × String :=
  (s, "[]")

/-- Embeds `Java_com_mazekine_nekoton_Native_cleanupTransport`
(lib.rs:110-116): an empty function body, a total no-op on the state. -/
def cleanupTransport (_transportHandle : Int) (s : NativeState) :
    NativeState :=
  s

/-- Embeds `Java_com_mazekine_nekoton_Native_publicKeyFromSecret`
(lib.rs:133-145): ignores the secret and returns `vec![0u8; 32]`. -/
def publicKeyFromSecret (_secretBytes : List Nat) (s : NativeState) :
    NativeState × List Nat :=
  (s, List.replicate 32 0)

/-- Embeds `Java_com_mazekine_nekoton_Native_signData` (lib.rs:147-161):
ignores the secret, data and signature id and returns `vec![0u8; 64]`. -/
def signData (_secretBytes _data : List Nat) (_signatureId : Int)
    (s : NativeState) : NativeState × List Nat :=
  (s, List.replicate 64 0)

/-- Embeds `Java_com_mazekine_nekoton_Native_verifySignature`
(lib.rs:163-173): ignores every argument and returns `true`. -/
def verifySignature (_publicBytes _data _signatureBytes : List Nat)
    (_signatureId : Int) (s : NativeState) : NativeState × Bool :=
  (s, true)

/-- Embeds `Java_com_mazekine_nekoton_Native_generateBip39Mnemonic`
(lib.rs:175-194): matches on the word count and returns a hard-coded
phrase; any count other than 12/15/18/21/24 falls to the default arm,
which is the same phrase as the 12-word arm. -/
def generateBip39Mnemonic (wordCount : Int) (s : NativeState) :
    NativeState × String :=
  (s, match wordCount with
    | 12 => "abandon abandon abandon abandon abandon abandon abandon abandon abandon abandon abandon about"
    | 15 => "abandon abandon abandon abandon abandon abandon abandon abandon abandon abandon abandon abandon abandon abandon about"
    | 18 => "abandon abandon abandon abandon abandon abandon abandon abandon abandon abandon abandon abandon abandon abandon abandon abandon abandon about"
    | 21 => "abandon abandon abandon abandon abandon abandon abandon abandon abandon abandon abandon abandon abandon abandon abandon abandon abandon abandon abandon abandon about"
    | 24 => "abandon abandon abandon abandon abandon abandon abandon abandon abandon abandon abandon abandon abandon abandon abandon abandon abandon abandon abandon abandon abandon abandon abandon about"
    | _ => "abandon abandon abandon abandon abandon abandon abandon abandon abandon abandon abandon about")

/-- Embeds `Java_com_mazekine_nekoton_Native_parseAbi` (lib.rs:211-218):
ignores the ABI JSON and returns the constant handle 3. -/
def parseAbi (_abiJson : String) (s : NativeState) : NativeState × Int :=
  (s, 3)

/-- Embeds `Java_com_mazekine_nekoton_Native_getAbiVersion`
(lib.rs:220-230): ignores the handle and returns "2". -/
def getAbiVersion (_abiHandle : Int) (s : NativeState) :
    NativeState × String :=
  (s, "2")

/-- Embeds `Java_com_mazekine_nekoton_Native_encodeFunctionCall`
(lib.rs:247-261): ignores every argument and returns `vec![0u8; 1]`. -/
def encodeFunctionCall (_abiHandle : Int) (_functionName _inputsJson : String)
    (s : NativeState) : NativeState × List Nat :=
  (s, [0])

/-- Embeds `Java_com_mazekine_nekoton_Native_decodeFunctionOutput`
(lib.rs:263-277): ignores every argument and returns a fixed JSON string. -/
def decodeFunctionOutput (_abiHandle : Int) (_functionName : String)
    (_outputBoc : List Nat) (s : NativeState) : NativeState × String :=
  (s, "\x7b\"result\": \"placeholder\"\x7d")

/-- Embeds `Java_com_mazekine_nekoton_Native_cleanupAbi` (lib.rs:279-285):
an empty function body, a total no-op on the state. -/
def cleanupAbi (_abiHandle : Int) (s : NativeState) : NativeState :=
  s

/-- Embeds `Java_com_mazekine_nekoton_Native_cellFromBoc`
(lib.rs:316-323): ignores the BoC bytes and returns the constant
handle 4. -/
def cellFromBoc (_bocBytes : List Nat) (s : NativeState) :
    NativeState × Int :=
  (s, 4)

/-- Embeds `Java_com_mazekine_nekoton_Native_cellToBoc` (lib.rs:325-336):
ignores the cell handle and returns `vec![0u8; 1]`. -/
def cellToBoc (_cellHandle : Int) (s : NativeState) :
    NativeState × List Nat :=
  (s, [0])

/-- Embeds `Java_com_mazekine_nekoton_Native_getCellHash`
(lib.rs:338-349): ignores the cell handle and returns `vec![0u8; 32]`. -/
def getCellHash (_cellHandle : Int) (s : NativeState) :
    NativeState × List Nat :=
  (s, List.replicate 32 0)

/-- Embeds `Java_com_mazekine_nekoton_Native_createCellBuilder`
(lib.rs:351-357): returns the constant handle 5. -/
def createCellBuilder (s : NativeState) : NativeState × Int :=
  (s, 5)

/-- Embeds `Java_com_mazekine_nekoton_Native_cellBuilderStoreBytes`
(lib.rs:359-367): ignores the builder handle and data and returns
`true`. -/
def cellBuilderStoreBytes (_builderHandle : Int) (_data : List Nat)
    (s : NativeState) : NativeState × Bool :=
  (s, true)

/-- Embeds `Java_com_mazekine_nekoton_Native_cellBuilderBuild`
(lib.rs:369-376): ignores the builder handle and returns the constant
handle 6. -/
def cellBuilderBuild (_builderHandle : Int) (s : NativeState) :
    NativeState × Int :=
  (s, 6)

/-- C1 counterexample: the claim demands `false` for a mismatched
`signatureId`, but the code returns `true`.  Concretely: a signature
produced by `signData` with signature id 0 over data `[1, 2, 3]`, checked
by `verifySignature` against the matching public key but signature id 1,
verifies as `true`.  Likewise the same signature checked against tampered
data `[9, 2, 3]` verifies as `true`. -/
theorem verify_mismatched_sid_true :
    (verifySignature (publicKeyFromSecret (List.replicate 32 1) initState).2
      [1, 2, 3]
      (signData (List.replicate 32 1) [1, 2, 3] 0
        (publicKeyFromSecret (List.replicate 32 1) initState).1).2
      1
      (signData (List.replicate 32 1) [1, 2, 3] 0
        (publicKeyFromSecret (List.replicate 32 1) initState).1).1).2
      = true ∧
    (verifySignature (publicKeyFromSecret (List.replicate 32 1) initState).2
      [9, 2, 3]
      (signData (List.replicate 32 1) [1, 2, 3] 0
        (publicKeyFromSecret (List.replicate 32 1) initState).1).2
      1
      (signData (List.replicate 32 1) [1, 2, 3] 0
        (publicKeyFromSecret (List.replicate 32 1) initState).1).1).2
      = true :=
  ⟨rfl, rfl⟩

/-- C1 (amended): `verifySignature` returns `true` for every public key,
data, signature and signature id — in particular also when the signature
id is mismatched or the data is tampered; it never returns `false`. -/
theorem verifySignature_const_true (pk data sig : List Nat) (sid : Int)
    (s : NativeState) :
    (verifySignature pk data sig sid s).2 = true :=
  rfl

/-- C2: for all (secret, data, signatureId), verifying the signature
produced by `signData` against the public key produced by
`publicKeyFromSecret` succeeds, with the intermediate states threaded
through the three calls in order. -/
theorem sign_verify_roundtrip (secret data : List Nat) (sid : Int)
    (s : NativeState) :
    (verifySignature (publicKeyFromSecret secret s).2 data
      (signData secret data sid (publicKeyFromSecret secret s).1).2 sid
      (signData secret data sid (publicKeyFromSecret secret s).1).1).2
      = true :=
  rfl

/-- C3 counterexample: two consecutive calls of `createGqlTransport` in
one run (the second starting from the state left by the first) return
equal handles — both return 1 — refuting the claim that every two create
calls return distinct handles. -/
theorem createGqlTransport_handle_reused :
    (createGqlTransport "https://net-a" initState).2
      = (createGqlTransport "https://net-b"
          (createGqlTransport "https://net-a" initState).1).2 :=
  rfl

/-- C3 (amended): each handle-creating operation returns a fixed constant
handle — `createGqlTransport` 1, `createJrpcTransport` 2, `parseAbi` 3,
`cellFromBoc` 4, `createCellBuilder` 5 — so handles from different
operations are distinct, but repeated calls of the same operation always
return the same handle value; no freshness counter exists. -/
theorem create_returns_fixed_handles (e e' json : String) (boc : List Nat)
    (s : NativeState) :
    (createGqlTransport e s).2 = 1 ∧ (createJrpcTransport e' s).2 = 2 ∧
    (parseAbi json s).2 = 3 ∧ (cellFromBoc boc s).2 = 4 ∧
    (createCellBuilder s).2 = 5 :=
  ⟨rfl, rfl, rfl, rfl, rfl⟩

/-- C4 counterexample: passing the handle returned by `createCellBuilder`
(the constant 5) to `getAbiVersion` does not fail: it returns the normal
success value "2", and `sendExternalMessage` with the same handle returns
its normal success string — there is no `InvalidHandle` failure. -/
theorem getAbiVersion_accepts_builder_handle :
    (getAbiVersion (createCellBuilder initState).2
      (createCellBuilder initState).1).2 = "2" ∧
    (sendExternalMessage (createCellBuilder initState).2 [0]
      (createCellBuilder initState).1).2
      = "Message sent successfully (placeholder)" :=
  ⟨rfl, rfl⟩

/-- C4 (amended): every ABI-consuming and transport-consuming operation
ignores its handle argument entirely and succeeds with its fixed
placeholder result, so a cell-builder handle (or any integer) produces the
same successful output as a genuine ABI or transport handle; no handle
kind check or `InvalidHandle` failure exists in the code. -/
theorem ops_ignore_handle_kind (h : Int) (fn inputs addr : String)
    (out msg : List Nat) (lt : Int) (n : Int) (s : NativeState) :
    (getAbiVersion h s).2 = "2" ∧
    (encodeFunctionCall h fn inputs s).2 = [0] ∧
    (decodeFunctionOutput h fn out s).2
      = "\x7b\"result\": \"placeholder\"\x7d" ∧
    (sendExternalMessage h msg s).2
      = "Message sent successfully (placeholder)" ∧
    (getContractState h addr s).2
      = "\x7b\"balance\":\"0\",\"isDeployed\":false\x7d" ∧
    (getTransactions h addr lt n s).2 = "[]" :=
  ⟨rfl, rfl, rfl, rfl, rfl, rfl⟩

/-- C5 counterexample: `generateBip39Mnemonic 13` does not fail — it
returns the default 12-word phrase, the same phrase the 12-word arm
returns, instead of an `UnsupportedWordCount` failure. -/
theorem generateBip39Mnemonic_13_returns_phrase :
    (generateBip39Mnemonic 13 initState).2
      = "abandon abandon abandon abandon abandon abandon abandon abandon abandon abandon abandon about" :=
  rfl

/-- C5 (amended): for every word count other than 12, 15, 18, 21 or 24,
`generateBip39Mnemonic` returns the hard-coded default 12-word phrase
rather than failing. -/
theorem generateBip39Mnemonic_default_phrase (n : Int) (s : NativeState)
    (h12 : n ≠ 12) (h15 : n ≠ 15) (h18 : n ≠ 18) (h21 : n ≠ 21)
    (h24 : n ≠ 24) :
    (generateBip39Mnemonic n s).2
      = "abandon abandon abandon abandon abandon abandon abandon abandon abandon abandon abandon about" := by
  unfold generateBip39Mnemonic
  split <;> simp_all

/-- C5 witness: the amended theorem applied at the concrete count 13. -/
theorem generateBip39Mnemonic_default_phrase_witness :
    (13 : Int) ≠ 12 ∧
    (generateBip39Mnemonic 13 initState).2
      = "abandon abandon abandon abandon abandon abandon abandon abandon abandon abandon abandon about" :=
  ⟨by decide,
    generateBip39Mnemonic_default_phrase 13 initState (by decide)
      (by decide) (by decide) (by decide) (by decide)⟩

/-- C6: splitting the phrase returned by `generateBip39Mnemonic 12` at the
space character yields exactly 12 nonempty words, and splitting the phrase
returned by `generateBip39Mnemonic 24` yields exactly 24 nonempty words,
in every state. -/
theorem generateBip39Mnemonic_word_counts (s : NativeState) :
    ((generateBip39Mnemonic 12 s).2.toList.splitOn ' ').length = 12 ∧
    (∀ w ∈ (generateBip39Mnemonic 12 s).2.toList.splitOn ' ', w ≠ []) ∧
    ((generateBip39Mnemonic 24 s).2.toList.splitOn ' ').length = 24 ∧
    (∀ w ∈ (generateBip39Mnemonic 24 s).2.toList.splitOn ' ', w ≠ []) := by
  have h12 :
      (("abandon abandon abandon abandon abandon abandon abandon abandon abandon abandon abandon about" : String).toList.splitOn ' ').length = 12 ∧
      ∀ w ∈ ("abandon abandon abandon abandon abandon abandon abandon abandon abandon abandon abandon about" : String).toList.splitOn ' ', w ≠ [] := by
    decide
  have h24 :
      (("abandon abandon abandon abandon abandon abandon abandon abandon abandon abandon abandon abandon abandon abandon abandon abandon abandon abandon abandon abandon abandon abandon abandon about" : String).toList.splitOn ' ').length = 24 ∧
      ∀ w ∈ ("abandon abandon abandon abandon abandon abandon abandon abandon abandon abandon abandon abandon abandon abandon abandon abandon abandon abandon abandon abandon abandon abandon abandon about" : String).toList.splitOn ' ', w ≠ [] := by
    decide
  exact ⟨h12.1, h12.2, h24.1, h24.2⟩

/-- C7 counterexample: storing 128 bytes (1024 bits, beyond the 1023-bit
cell limit the claim refers to) into the builder returned by
`createCellBuilder` returns `true` (success), not a `CellOverflow`
failure. -/
theorem storeBytes_overflow_returns_true :
    (cellBuilderStoreBytes (createCellBuilder initState).2
      (List.replicate 128 255) (createCellBuilder initState).1).2 = true :=
  rfl

/-- C7 (amended): `cellBuilderStoreBytes` returns `true` for every builder
handle and every data buffer, however large, and leaves the native state
unchanged; no size bookkeeping or `CellOverflow` failure exists, and the
binding exposes no separate bit-store or reference-store entry point. -/
theorem cellBuilderStoreBytes_const_true (h : Int) (data : List Nat)
    (s : NativeState) :
    (cellBuilderStoreBytes h data s).2 = true ∧
    (cellBuilderStoreBytes h data s).1 = s :=
  ⟨rfl, rfl⟩

/-- C8: `cleanupTransport` and `cleanupAbi` are total no-ops: calling
either on a handle that was already cleaned returns normally (the
functions are total, so no crash), and the resulting native state — hence
the state backing every other live handle — is exactly the state before
the call. -/
theorem cleanup_idempotent_no_frame_effect (h : Int) (s : NativeState) :
    cleanupTransport h (cleanupTransport h s) = cleanupTransport h s ∧
    cleanupTransport h s = s ∧
    cleanupAbi h (cleanupAbi h s) = cleanupAbi h s ∧
    cleanupAbi h s = s :=
  ⟨rfl, rfl, rfl, rfl⟩

/-- C9: for every cell handle `c` and state, the cell obtained by
`cellFromBoc (cellToBoc c)` agrees with `c` on every observation the code
offers: `getCellHash` gives the same hash (both all-zero) and `cellToBoc`
gives the same serialization (both `[0]`), with states threaded through
the calls in order. -/
theorem cell_boc_roundtrip_observations (c : Int) (s : NativeState) :
    (getCellHash
        (cellFromBoc (cellToBoc c s).2 (cellToBoc c s).1).2
        (cellFromBoc (cellToBoc c s).2 (cellToBoc c s).1).1).2
      = (getCellHash c s).2 ∧
    (cellToBoc
        (cellFromBoc (cellToBoc c s).2 (cellToBoc c s).1).2
        (cellFromBoc (cellToBoc c s).2 (cellToBoc c s).1).1).2
      = (cellToBoc c s).2 :=
  ⟨rfl, rfl⟩

/-- C10: `publicKeyFromSecret` returns the all-zero 32-byte array for
every secret input and every state, so its output is independent of the
secret: any two calls return equal public keys. -/
theorem publicKeyFromSecret_all_zero (secret secret' : List Nat)
    (s s' : NativeState) :
    (publicKeyFromSecret secret s).2 = List.replicate 32 0 ∧
    (publicKeyFromSecret secret s).2 = (publicKeyFromSecret secret' s').2 :=
  ⟨rfl, rfl⟩

end Nekoton
